import Mathlib

/-!
Shallow embedding of the auth/video backend in `src/backend/app.py` and proofs
about its claimed properties.

Modelling conventions:

* Machine-level values are `Nat`/`Int` with explicit `% 2^32` where the source
  (via `hashlib.sha256`) works on 32-bit words.
* Python `str` is Lean `String`; `str.encode()` (UTF-8) is `pyEncode`.
* Clock readings (`datetime.now(timezone.utc)`) are passed explicitly: for the
  playback-token functions as microseconds since the Unix epoch (Python
  datetimes have microsecond resolution), for the revocation registry as
  seconds (the granularity of the TTL index `expireAfterSeconds`).
* The MongoDB collections are association lists; `find_one({'k': v})` is
  `List.find?`, `insert_one` is an append (guarded by the unique index where
  the source creates one).
* Fallible Python code (operations that can raise) returns `PyResult`; a
  Flask handler's `try/except` boundary maps `exn` to the 500 response.
* `bcrypt` is the black-box Password Verifier of the spec: `signup`/`login`
  take the hash/verify functions as explicit parameters.
-/

/-- Exceptions raised by the modelled Python operations. -/
inductive PyError where
  | typeError
  | duplicateKey
  | zeroDivision
  | valueError
  deriving DecidableEq

/-- Result of a Python computation: a value, or a raised exception. -/
inductive PyResult (α : Type) where
  | ok (val : α)
  | exn (err : PyError)
  deriving DecidableEq

/-- Python str truthiness test for whitespace used by `str.strip()`
(ASCII whitespace subset, which covers all inputs considered here). -/
def isPySpace (c : Char) : Bool :=
  c == ' ' || c == '\t' || c == '\n' || c == '\r' || c.toNat == 11 || c.toNat == 12

/-- Model of Python `str.strip()`. -/
def pyStrip (s : String) : String :=
  String.mk (((s.data.dropWhile isPySpace).reverse.dropWhile isPySpace).reverse)

/-- Lowercase one character, ASCII range (model of `str.lower()` on the
ASCII subset used by the embedding). -/
def pyLowerChar (c : Char) : Char :=
  if 65 ≤ c.toNat && c.toNat ≤ 90 then Char.ofNat (c.toNat + 32) else c

/-- Model of Python `str.lower()`. -/
def pyLower (s : String) : String := String.mk (s.data.map pyLowerChar)

/-- UTF-8 encoding of one character. -/
def utf8Bytes (c : Char) : List Nat :=
  let n := c.toNat
  if n < 0x80 then [n]
  else if n < 0x800 then [0xC0 ||| (n >>> 6), 0x80 ||| (n &&& 0x3F)]
  else if n < 0x10000 then
    [0xE0 ||| (n >>> 12), 0x80 ||| ((n >>> 6) &&& 0x3F), 0x80 ||| (n &&& 0x3F)]
  else
    [0xF0 ||| (n >>> 18), 0x80 ||| ((n >>> 12) &&& 0x3F),
     0x80 ||| ((n >>> 6) &&& 0x3F), 0x80 ||| (n &&& 0x3F)]

/-- Model of Python `str.encode()` (UTF-8 bytes). -/
def pyEncode (s : String) : List Nat := s.data.flatMap utf8Bytes

/-- A Python str is ASCII when every character is below 128; this is the
precondition `secrets.compare_digest` checks on str arguments. -/
def isAsciiStr (s : String) : Bool := s.data.all (fun c => c.toNat < 128)

/-- Model of `secrets.compare_digest` on two str arguments: constant-time
equality, but raising TypeError when either string has a non-ASCII
character (CPython: "comparing strings with non-ASCII characters is not
supported"). -/
def compare_digest (a b : String) : PyResult Bool :=
  if isAsciiStr a && isAsciiStr b then .ok (a == b) else .exn .typeError

/-! SHA-256 (`hashlib.sha256(...).hexdigest()`), on byte lists, words as
`Nat` reduced mod 2^32. -/

/-- 2^32, the word modulus of SHA-256. -/
def M32 : Nat := 4294967296

/-- Rotate a 32-bit word right by `n`. -/
def rotr (n x : Nat) : Nat := ((x >>> n) ||| (x <<< (32 - n))) % M32

/-- The 64 SHA-256 round constants. -/
def shaK : List Nat :=
  [1116352408, 1899447441, 3049323471, 3921009573, 961987163,
   1508970993, 2453635748, 2870763221, 3624381080, 310598401,
   607225278, 1426881987, 1925078388, 2162078206, 2614888103,
   3248222580, 3835390401, 4022224774, 264347078, 604807628,
   770255983, 1249150122, 1555081692, 1996064986, 2554220882,
   2821834349, 2952996808, 3210313671, 3336571891, 3584528711,
   113926993, 338241895, 666307205, 773529912, 1294757372,
   1396182291, 1695183700, 1986661051, 2177026350, 2456956037,
   2730485921, 2820302411, 3259730800, 3345764771, 3516065817,
   3600352804, 4094571909, 275423344, 430227734, 506948616,
   659060556, 883997877, 958139571, 1322822218, 1537002063,
   1747873779, 1955562222, 2024104815, 2227730452, 2361852424,
   2428436474, 2756734187, 3204031479, 3329325298]

/-- The SHA-256 initial hash state. -/
def shaH0 : List Nat :=
  [1779033703, 3144134277, 1013904242, 2773480762,
   1359893119, 2600822924, 528734635, 1541459225]

/-- SHA-256 Σ0. -/
def bigSigma0 (x : Nat) : Nat := rotr 2 x ^^^ rotr 13 x ^^^ rotr 22 x

/-- SHA-256 Σ1. -/
def bigSigma1 (x : Nat) : Nat := rotr 6 x ^^^ rotr 11 x ^^^ rotr 25 x

/-- SHA-256 σ0. -/
def smallSigma0 (x : Nat) : Nat := rotr 7 x ^^^ rotr 18 x ^^^ (x >>> 3)

/-- SHA-256 σ1. -/
def smallSigma1 (x : Nat) : Nat := rotr 17 x ^^^ rotr 19 x ^^^ (x >>> 10)

/-- SHA-256 padding: append 0x80, zero bytes to 56 mod 64, and the 64-bit
big-endian bit length. -/
def padMessage (msg : List Nat) : List Nat :=
  let len := msg.length
  let padZeros := (55 + 64 - len % 64) % 64
  msg ++ [0x80] ++ List.replicate padZeros 0 ++
    (List.range 8).map (fun i => ((8 * len) >>> (8 * (7 - i))) % 256)

/-- Split a byte list into 64-byte blocks (fuel-based structural recursion so
that proofs can evaluate it inside the kernel). -/
def toBlocksAux : Nat → List Nat → List (List Nat)
  | 0, _ => []
  | _, [] => []
  | fuel + 1, a :: rest => ((a :: rest).take 64) :: toBlocksAux fuel ((a :: rest).drop 64)

/-- Split a padded message into 64-byte blocks. -/
def toBlocks (l : List Nat) : List (List Nat) := toBlocksAux l.length l

/-- Big-endian 32-bit words of a 64-byte block. -/
def toWords : List Nat → List Nat
  | b0 :: b1 :: b2 :: b3 :: rest => (((b0 * 256 + b1) * 256 + b2) * 256 + b3) :: toWords rest
  | _ => []

/-- Extend the 16-word message schedule by `n` further words. -/
def extendSchedule (w : List Nat) : Nat → List Nat
  | 0 => w
  | k + 1 =>
    let w := extendSchedule w k
    let t := (smallSigma1 (w.getD (w.length - 2) 0) + w.getD (w.length - 7) 0 +
              smallSigma0 (w.getD (w.length - 15) 0) + w.getD (w.length - 16) 0) % M32
    w ++ [t]

/-- One SHA-256 compression round on the 8-word state, given `(k, w)`. -/
def compressRound (st : List Nat) (kw : Nat × Nat) : List Nat :=
  match st with
  | [a, b, c, d, e, f, g, h] =>
    let ch := (e &&& f) ^^^ ((e ^^^ 4294967295) &&& g)
    let maj := (a &&& b) ^^^ (a &&& c) ^^^ (b &&& c)
    let t1 := (h + bigSigma1 e + ch + kw.1 + kw.2) % M32
    let t2 := (bigSigma0 a + maj) % M32
    [(t1 + t2) % M32, a, b, c, (d + t1) % M32, e, f, g]
  | other => other

/-- Process one 64-byte block into the running hash state. -/
def processBlock (h : List Nat) (block : List Nat) : List Nat :=
  let w := extendSchedule (toWords block) 48
  let st := (shaK.zip w).foldl compressRound h
  (h.zip st).map (fun p => (p.1 + p.2) % M32)

/-- SHA-256 digest of a byte list, as eight 32-bit words. -/
def sha256Words (msg : List Nat) : List Nat :=
  (toBlocks (padMessage msg)).foldl processBlock shaH0

/-- Lowercase hexadecimal digit of `n % 16`. -/
def hexChar (n : Nat) : Char :=
  match n % 16 with
  | 0 => '0' | 1 => '1' | 2 => '2' | 3 => '3' | 4 => '4' | 5 => '5' | 6 => '6' | 7 => '7'
  | 8 => '8' | 9 => '9' | 10 => 'a' | 11 => 'b' | 12 => 'c' | 13 => 'd' | 14 => 'e' | _ => 'f'

/-- Model of `hashlib.sha256(data).hexdigest()`: the 64-character lowercase
hex string of the digest. -/
def sha256Hex (msg : List Nat) : String :=
  String.mk ((sha256Words msg).flatMap
    (fun w => (List.range 8).map (fun i => hexChar (w >>> (4 * (7 - i))))))

/-! Model of `datetime.now(timezone.utc).isoformat()`: the instant is
microseconds since the Unix epoch; the civil date comes from the standard
days-to-Gregorian conversion; the fractional part is printed exactly when
the microsecond field is nonzero, as CPython does. -/

/-- Gregorian `(year, month, day)` of a day count since 1970-01-01. -/
def civilFromDays (z0 : Nat) : Nat × Nat × Nat :=
  let z := z0 + 719468
  let era := z / 146097
  let doe := z % 146097
  let yoe := (doe - doe / 1460 + doe / 36524 - doe / 146096) / 365
  let y0 := yoe + era * 400
  let doy := doe - (365 * yoe + yoe / 4 - yoe / 100)
  let mp := (5 * doy + 2) / 153
  let d := doy - (153 * mp + 2) / 5 + 1
  let m := if mp < 10 then mp + 3 else mp - 9
  (if m ≤ 2 then y0 + 1 else y0, m, d)

/-- Two decimal digits, zero-padded. -/
def pad2 (n : Nat) : List Char := [hexChar ((n / 10) % 10), hexChar (n % 10)]

/-- Four decimal digits, zero-padded. -/
def pad4 (n : Nat) : List Char :=
  [hexChar ((n / 1000) % 10), hexChar ((n / 100) % 10), hexChar ((n / 10) % 10), hexChar (n % 10)]

/-- Six decimal digits, zero-padded (the microsecond field). -/
def pad6 (n : Nat) : List Char :=
  [hexChar ((n / 100000) % 10), hexChar ((n / 10000) % 10), hexChar ((n / 1000) % 10),
   hexChar ((n / 100) % 10), hexChar ((n / 10) % 10), hexChar (n % 10)]

/-- Model of `datetime.now(timezone.utc).isoformat()` at the instant `t`
(microseconds since the Unix epoch): e.g. `2024-01-01T12:30:00.000001+00:00`,
with the fractional seconds omitted exactly when the microsecond is zero. -/
def isoformatUTC (t : Nat) : String :=
  let days := t / 86400000000
  let rem := t % 86400000000
  let ymd := civilFromDays days
  let hh := rem / 3600000000
  let mi := (rem / 60000000) % 60
  let ss := (rem / 1000000) % 60
  let us := rem % 1000000
  let frac := if us == 0 then [] else '.' :: pad6 us
  String.mk (pad4 ymd.1 ++ '-' :: pad2 ymd.2.1 ++ '-' :: pad2 ymd.2.2 ++
    'T' :: pad2 hh ++ ':' :: pad2 mi ++ ':' :: pad2 ss ++ frac ++ "+00:00".data)

/-! The Playback Token Generator (`generate_playback_token` /
`verify_playback_token` in `app.py`). The process-wide `SECRET_KEY`
configuration and the clock reading are explicit parameters. -/

/-- Embedding of `generate_playback_token(video_id, user_id)` at clock
reading `now` (microseconds since epoch) with server secret `secretKey`:
the SHA-256 hex digest of `f"{video_id}:{user_id}:{timestamp}:{SECRET_KEY}"`
where `timestamp = datetime.now(timezone.utc).isoformat()`. -/
def generate_playback_token (videoId userId : String) (secretKey : String) (now : Nat) : String :=
  let timestamp := isoformatUTC now
  let data := videoId ++ ":" ++ userId ++ ":" ++ timestamp ++ ":" ++ secretKey
  sha256Hex (pyEncode data)

/-- The `for hour_offset in range(3)` loop body of `verify_playback_token`:
recompute the expected digest for `now - hour_offset hours` and compare with
`secrets.compare_digest`, returning at the first match; a raised TypeError
aborts the loop. -/
def verifyLoop (videoId userId token secretKey : String) (now : Nat) :
    List Nat → PyResult Bool
  | [] => .ok false
  | hourOffset :: rest =>
    let timestamp := isoformatUTC (now - hourOffset * 3600000000)
    let data := videoId ++ ":" ++ userId ++ ":" ++ timestamp ++ ":" ++ secretKey
    let expected := sha256Hex (pyEncode data)
    match compare_digest token expected with
    | .exn e => .exn e
    | .ok true => .ok true
    | .ok false => verifyLoop videoId userId token secretKey now rest

/-- Embedding of `verify_playback_token(video_id, user_id, token)` at clock
reading `now`: tries hour offsets 0, 1, 2. -/
def verify_playback_token (videoId userId token : String) (secretKey : String)
    (now : Nat) : PyResult Bool :=
  verifyLoop videoId userId token secretKey now [0, 1, 2]

/-! The document store. Users, videos, revocation entries and watch-history
records are association lists; the unique indexes created in `app.py`'s main
block (`email` on users, `jti` on tokens) guard the corresponding inserts. -/

/-- A user document as written by `signup` (timestamps in seconds). -/
structure User where
  _id : String
  name : String
  email : String
  password_hash : String
  created_at : Nat
  updated_at : Nat
  is_active : Bool
  last_login : Option Nat := none
  deriving DecidableEq

/-- A video document. -/
structure Video where
  _id : String
  title : String
  description : String
  youtube_id : String
  thumbnail_url : String
  is_active : Bool
  created_at : Nat
  deriving DecidableEq

/-- A revocation (blacklist) entry as inserted by `logout`
(`revoked_at` in seconds). -/
structure RevocationEntry where
  jti : String
  user_id : String
  revoked_at : Nat
  deriving DecidableEq

/-- A watch-history record as inserted by `get_video_stream`. -/
structure WatchRecord where
  user_id : String
  video_id : String
  watched_at : Nat
  action : String
  deriving DecidableEq

/-- A freshly minted access token: subject identity plus unique `jti`
(`create_access_token(identity=user_id)`). -/
structure AccessToken where
  identity : String
  jti : String
  deriving DecidableEq

/-- Embedding of `check_if_token_revoked` (the `token_in_blocklist_loader`):
the token collection holds a document with this `jti`. -/
def check_if_token_revoked (tokens : List RevocationEntry) (jti : String) : Bool :=
  (tokens.find? (fun e => e.jti == jti)).isSome

/-- Mongo `insert_one` on the token collection under the unique index on
`jti` (`create_index('jti', unique=True)`): a duplicate key raises. -/
def insert_one_token (tokens : List RevocationEntry) (e : RevocationEntry) :
    PyResult (List RevocationEntry) :=
  if tokens.any (fun x => x.jti == e.jti) then .exn .duplicateKey
  else .ok (tokens ++ [e])

/-- The TTL index on `revoked_at` (`expireAfterSeconds = 7*24*60*60`):
background purge at time `now` removes entries whose `revoked_at` is at
least 604800 seconds in the past. -/
def ttl_purge (tokens : List RevocationEntry) (now : Nat) : List RevocationEntry :=
  tokens.filter (fun e => now < e.revoked_at + 604800)

/-- Embedding of the `POST /api/auth/logout` pipeline on a request carrying a
token with id `jti` for `user_id`: `@jwt_required()` consults
`check_if_token_revoked` first (a revoked token is rejected 401 before the
handler runs); the handler then inserts the blacklist document, and any
exception (for example the unique-index duplicate key) becomes a 500.
Returns the response and the token collection after the call. -/
def logout (tokens : List RevocationEntry) (jti user_id : String) (now : Nat) :
    (Nat × String) × List RevocationEntry :=
  if check_if_token_revoked tokens jti then
    ((401, "Unauthorized"), tokens)
  else
    match insert_one_token tokens { jti := jti, user_id := user_id, revoked_at := now } with
    | .ok t2 => ((200, "Logout successful"), t2)
    | .exn _ => ((500, "Internal server error"), tokens)

/-- A registry operation that can happen after a logout: another logout's
insert, or a TTL purge run at some time. -/
inductive RegistryOp where
  | insert (jti user_id : String) (t : Nat)
  | purge (t : Nat)
  deriving DecidableEq

/-- Apply one registry operation (a failed duplicate insert leaves the
collection unchanged). -/
def applyRegistryOp (tokens : List RevocationEntry) : RegistryOp → List RevocationEntry
  | .insert j u t =>
    match insert_one_token tokens { jti := j, user_id := u, revoked_at := t } with
    | .ok t2 => t2
    | .exn _ => tokens
  | .purge t => ttl_purge tokens t

/-- Apply a sequence of registry operations. -/
def applyRegistryOps (tokens : List RevocationEntry) (ops : List RegistryOp) :
    List RevocationEntry :=
  ops.foldl applyRegistryOp tokens

/-- The user document `signup` inserts (already-normalized fields). -/
def signupUser (hp : String → String) (name email password : String) (now : Nat)
    (newId : String) : User :=
  { _id := newId, name := name, email := email, password_hash := hp password,
    created_at := now, updated_at := now, is_active := true }

/-- Embedding of `POST /api/auth/signup` (after the request-shape checks):
strip/normalize the fields, validate, check duplicate email, insert.
The Password Verifier `hp` (bcrypt `hash_password`) is a black-box
parameter; `newId` is the fresh `uuid4`. Returns the response
(status, message) and the user collection after the call. -/
def signup (hp : String → String) (db : List User) (nameArg emailArg passwordArg : String)
    (now : Nat) (newId : String) : (Nat × String) × List User :=
  let name := pyStrip nameArg
  let email := pyLower (pyStrip emailArg)
  let password := passwordArg
  if name == "" || email == "" || password == "" then
    ((400, "Name, email, and password are required"), db)
  else if password.length < 6 then
    ((400, "Password must be at least 6 characters"), db)
  else if (db.find? (fun u => u.email == email)).isSome then
    ((409, "Email already registered"), db)
  else
    ((201, "User registered successfully"),
      db ++ [signupUser hp name email password now newId])

/-- Embedding of `POST /api/auth/login` (after the request-shape checks):
normalize the email, look the user up, check the password with the
black-box verifier `vp` (bcrypt `checkpw`), check `is_active`, and on
success record `last_login`. Returns the response and the user collection
after the call. -/
def login (vp : String → String → Bool) (db : List User) (emailArg passwordArg : String)
    (now : Nat) : (Nat × String) × List User :=
  let email := pyLower (pyStrip emailArg)
  let password := passwordArg
  if email == "" || password == "" then
    ((400, "Email and password are required"), db)
  else
    match db.find? (fun u => u.email == email) with
    | none => ((401, "Invalid credentials"), db)
    | some user =>
      if !(vp password user.password_hash) then ((401, "Invalid credentials"), db)
      else if !user.is_active then ((403, "Account is deactivated"), db)
      else ((200, "Login successful"),
        db.map (fun u => if u._id == user._id then { u with last_login := some now } else u))

/-- Embedding of `POST /api/auth/refresh` on a request whose refresh token
verified with identity `user_id`: look the subject up by `_id`; 404 when
missing, otherwise mint a brand-new access token (`newJti` is the fresh
`jti` chosen by `create_access_token`). The token collection is returned
unchanged: the handler never revokes or rotates the refresh token. -/
def refresh (db : List User) (tokens : List RevocationEntry) (user_id newJti : String) :
    (Nat × Option AccessToken) × List RevocationEntry :=
  match db.find? (fun u => u._id == user_id) with
  | none => ((404, none), tokens)
  | some _ => ((200, some { identity := user_id, jti := newJti }), tokens)

/-- Embedding of `GET /api/video/<video_id>/stream` for an authenticated
`user_id`: check `not token or not verify_playback_token(...)` (a `None` or
empty query parameter is falsy, so verification is skipped), fetch the
video, check `is_active`, then insert the watch-history record inside its
own `try/except` — `watchInsertFails` says whether that insert raises.
Returns the response status and the watch-history collection after the
call; an exception escaping to the handler boundary is the 500 response. -/
def get_video_stream (videos : List Video) (history : List WatchRecord)
    (user_id video_id : String) (token : Option String) (secretKey : String)
    (now : Nat) (watchInsertFails : Bool) : Nat × List WatchRecord :=
  let tokenInvalid : PyResult Bool :=
    match token with
    | none => .ok true
    | some t =>
      if t == "" then .ok true
      else
        match verify_playback_token video_id user_id t secretKey now with
        | .exn e => .exn e
        | .ok b => .ok (!b)
  match tokenInvalid with
  | .exn _ => (500, history)
  | .ok true => (403, history)
  | .ok false =>
    match videos.find? (fun v => v._id == video_id) with
    | none => (404, history)
    | some video =>
      if !video.is_active then (403, history)
      else
        let history2 :=
          if watchInsertFails then history
          else history ++ [{ user_id := user_id, video_id := video_id,
                             watched_at := now, action := "stream_requested" }]
        (200, history2)

/-- Python `//` on integers: floor division, raising ZeroDivisionError on a
zero divisor. -/
def pyFloorDiv (a b : Int) : PyResult Int :=
  if b = 0 then .exn .zeroDivision else .ok (Int.fdiv a b)

/-- Mongo cursor `skip(s).limit(n)` on an already-filtered list: `limit(0)`
means no limit, a negative limit takes `|n|` documents. A negative skip is
rejected by pymongo before the query runs (ValueError); that case is
handled by the caller. -/
def mongoSkipLimit (l : List Video) (s : Nat) (lim : Int) : List Video :=
  let afterSkip := l.drop s
  if lim = 0 then afterSkip else afterSkip.take lim.natAbs

/-- The dashboard page payload: the listed video ids with their freshly
generated playback tokens, and the pagination block. -/
structure DashboardPage where
  videoIds : List String
  playback_tokens : List String
  page : Int
  per_page : Int
  total : Nat
  total_pages : Int
  deriving DecidableEq

/-- The body of `GET /api/dashboard` for an authenticated `user_id` with
already-parsed integer query parameters `page` and `per_page`: fetch the
active videos with skip/limit, build the items with playback tokens, count
the total, and compute `total_pages = (total + per_page - 1) // per_page`.
Any raised exception propagates. -/
def get_dashboard_body (videos : List Video) (user_id : String) (page per_page : Int)
    (secretKey : String) (now : Nat) : PyResult DashboardPage :=
  let skipCount := (page - 1) * per_page
  if skipCount < 0 then .exn .valueError
  else
    let active := videos.filter (fun v => v.is_active)
    let shown := mongoSkipLimit active skipCount.toNat per_page
    let total := active.length
    match pyFloorDiv ((total : Int) + per_page - 1) per_page with
    | .exn e => .exn e
    | .ok totalPages =>
      .ok { videoIds := shown.map (fun v => v._id),
            playback_tokens :=
              shown.map (fun v => generate_playback_token v._id user_id secretKey now),
            page := page, per_page := per_page, total := total, total_pages := totalPages }

/-- Embedding of `GET /api/dashboard`: the handler's `try/except` maps any
exception to the generic 500 response. -/
def get_dashboard (videos : List Video) (user_id : String) (page per_page : Int)
    (secretKey : String) (now : Nat) : Nat × Option DashboardPage :=
  match get_dashboard_body videos user_id page per_page secretKey now with
  | .ok d => (200, some d)
  | .exn _ => (500, none)

/-! Concrete fixtures used by counterexamples and witnesses. -/

/-- A deactivated user document (`is_active := false`). -/
def inactiveUser : User :=
  { _id := "u1", name := "Renu", email := "renu@example.com", password_hash := "hash1",
    created_at := 0, updated_at := 0, is_active := false }

/-- A revocation entry for token id `j1`. -/
def revokedJ1 : RevocationEntry := { jti := "j1", user_id := "u1", revoked_at := 0 }

/-- A black-box password-verifier instantiation: the hash of `p` is `"bc:" ++ p`. -/
def vpModel : String → String → Bool := fun p h => h == "bc:" ++ p

/-- A black-box password-hash instantiation matching `vpModel`. -/
def hpModel : String → String := fun p => "bc:" ++ p

/-- An active user document whose password (under `hpModel`) is `rightpw`. -/
def userSita : User :=
  { _id := "u7", name := "Sita", email := "sita@example.com", password_hash := "bc:rightpw",
    created_at := 0, updated_at := 0, is_active := true }

/-- An active video document. -/
def videoV1 : Video :=
  { _id := "v1", title := "How Startups Fail", description := "Lessons",
    youtube_id := "J8M5dPRcNus", thumbnail_url := "https://img.example/v1.jpg",
    is_active := true, created_at := 0 }

/-! Theorems. -/

/-- Helper: a member satisfying the predicate makes `find?` succeed. -/
theorem find?_isSome_of_mem {α : Type} (p : α → Bool) (l : List α) (x : α)
    (hx : x ∈ l) (hp : p x = true) : (l.find? p).isSome = true := by
  induction l with
  | nil => cases hx
  | cons a t ih =>
    cases hpa : p a with
    | true => simp [List.find?, hpa]
    | false =>
      rcases List.mem_cons.mp hx with h | h
      · rw [← h] at hpa; rw [hp] at hpa; cases hpa
      · simpa [List.find?, hpa] using ih h

/-- Helper: `any` agrees with `find?.isSome`. -/
theorem any_eq_find?_isSome {α : Type} (p : α → Bool) (l : List α) :
    l.any p = (l.find? p).isSome := by
  induction l with
  | nil => rfl
  | cons a t ih => cases h : p a <;> simp [List.any_cons, List.find?, h, ih]

/-- Helper: a revocation entry survives any sequence of later registry
operations whose purge runs all happen before the entry is purge-eligible. -/
theorem entry_mem_applyRegistryOps (e : RevocationEntry) (ops : List RegistryOp) (tc : Nat)
    (hops : ∀ t, RegistryOp.purge t ∈ ops → t ≤ tc) (htc : tc < e.revoked_at + 604800) :
    ∀ tokens, e ∈ tokens → e ∈ applyRegistryOps tokens ops := by
  induction ops with
  | nil => intro tokens h; exact h
  | cons op rest ih =>
    intro tokens h
    have hops2 : ∀ t, RegistryOp.purge t ∈ rest → t ≤ tc :=
      fun t ht => hops t (List.mem_cons_of_mem _ ht)
    have hstep : e ∈ applyRegistryOp tokens op := by
      cases op with
      | insert j u t =>
        unfold applyRegistryOp insert_one_token
        by_cases hdup : tokens.any (fun x => x.jti == j) = true
        · simp [hdup, h]
        · simp only [Bool.not_eq_true] at hdup
          simp [hdup]
          exact Or.inl h
      | purge t =>
        have ht : t ≤ tc := hops t (List.mem_cons_self _ _)
        unfold applyRegistryOp ttl_purge
        rw [List.mem_filter]
        refine ⟨h, ?_⟩
        simp only [decide_eq_true_eq]
        omega
    exact ih hops2 (applyRegistryOp tokens op) hstep

/-- C3: once `logout` has inserted a `jti` into the revocation registry, the
blocklist check `check_if_token_revoked` answers true for that `jti` after
any further sequence of registry operations (more logouts, TTL purge runs)
whose purge runs all happen before the entry's purge eligibility
(`revoked_at + 7` days), regardless of any token expiry. -/
theorem revocation_permanent_until_purge
    (tokens0 : List RevocationEntry) (jti uid : String) (t0 tc : Nat) (ops : List RegistryOp)
    (hfresh : check_if_token_revoked tokens0 jti = false)
    (htc : tc < t0 + 604800)
    (hops : ∀ t, RegistryOp.purge t ∈ ops → t ≤ tc) :
    check_if_token_revoked (applyRegistryOps (logout tokens0 jti uid t0).2 ops) jti = true := by
  have hany : tokens0.any (fun x => x.jti == jti) = false := by
    rw [any_eq_find?_isSome]
    exact hfresh
  have hlog : (logout tokens0 jti uid t0).2 =
      tokens0 ++ [{ jti := jti, user_id := uid, revoked_at := t0 }] := by
    unfold logout
    rw [hfresh]
    simp only [Bool.false_eq_true, if_false]
    unfold insert_one_token
    rw [hany]
    rfl
  rw [hlog]
  have hmem : ({ jti := jti, user_id := uid, revoked_at := t0 } : RevocationEntry) ∈
      tokens0 ++ [{ jti := jti, user_id := uid, revoked_at := t0 }] := by
    simp
  have hkept := entry_mem_applyRegistryOps
    { jti := jti, user_id := uid, revoked_at := t0 } ops tc hops htc
    (tokens0 ++ [{ jti := jti, user_id := uid, revoked_at := t0 }]) hmem
  exact find?_isSome_of_mem _ _ _ hkept (by simp)

/-- Witness for C3 at a concrete registry history. -/
theorem revocation_permanent_until_purge_witness :
    check_if_token_revoked
      (applyRegistryOps (logout [] "j1" "u1" 1000).2
        [RegistryOp.insert "j2" "u2" 2000, RegistryOp.purge 605000]) "j1" = true :=
  revocation_permanent_until_purge [] "j1" "u1" 1000 605000
    [RegistryOp.insert "j2" "u2" 2000, RegistryOp.purge 605000]
    (by decide) (by omega)
    (by intro t ht
        simp only [List.mem_cons, List.not_mem_nil, or_false] at ht
        rcases ht with h | h
        · cases h
        · cases h
          omega)

/-- C4 counterexample: the refresh handler does not reject a deactivated
subject — for a stored user with `is_active = false` it still answers 200
with a fresh access token, contradicting the claim that an inactive subject
is rejected. -/
theorem refresh_accepts_inactive_subject :
    inactiveUser.is_active = false ∧
    refresh [inactiveUser] [] "u1" "jti-new" =
      ((200, some { identity := "u1", jti := "jti-new" }), []) := by
  constructor
  · rfl
  · rfl

/-- C4 (amended): refresh re-checks only existence of the subject: a missing
subject gives 404 and no token; an existing subject — active or not, since
`is_active` is never consulted — gets a brand-new access token (the fresh
`jti` chosen at mint time) with status 200, and in every case the
revocation registry is returned unchanged (the refresh token is not
rotated or revoked). -/
theorem refresh_subject_existence_only (db : List User) (tokens : List RevocationEntry)
    (user_id newJti : String) :
    refresh db tokens user_id newJti =
      (if (db.find? (fun u => u._id == user_id)).isSome then
        (200, some { identity := user_id, jti := newJti }) else (404, none), tokens) := by
  unfold refresh
  cases h : db.find? (fun u => u._id == user_id) <;> simp [h]

/-- C5 counterexample: revoking an already-revoked `jti` is not reported as
success — the revoked-token check in front of the handler answers 401, not
200. -/
theorem logout_already_revoked_not_success :
    check_if_token_revoked [revokedJ1] "j1" = true ∧
    (logout [revokedJ1] "j1" "u1" 5).1.1 = 401 := by
  constructor
  · rfl
  · rfl

/-- C5 (amended): revoking an already-revoked `jti` never changes the
registry, but it does not report success: the verification layer rejects
the revoked token with 401 before the handler's insert can run (and the
unique index on `jti` would make a raw duplicate insert fail rather than
succeed). -/
theorem logout_already_revoked_amended (tokens : List RevocationEntry) (jti uid : String)
    (now : Nat) (h : check_if_token_revoked tokens jti = true) :
    logout tokens jti uid now = ((401, "Unauthorized"), tokens) := by
  unfold logout
  rw [h]
  rfl

/-- Witness for the amended C5 at a concrete registry. -/
theorem logout_already_revoked_amended_witness :
    logout [revokedJ1] "j1" "u1" 5 = ((401, "Unauthorized"), [revokedJ1]) :=
  logout_already_revoked_amended [revokedJ1] "j1" "u1" 5 (by decide)

/-- C10: the dashboard pagination is unguarded — with `per_page = 0` the
`total_pages` computation divides by zero and the handler's catch-all turns
it into the generic 500 response with no payload, for every collection and
every `page`; and no input validation ever produces a 400: every dashboard
response is either 200 or the generic 500. -/
theorem dashboard_per_page_zero_internal_error
    (videos : List Video) (uid secret : String) (now : Nat) :
    (∀ page : Int, get_dashboard videos uid page 0 secret now = (500, none)) ∧
    (∀ page per_page : Int,
      (get_dashboard videos uid page per_page secret now).1 = 200 ∨
      (get_dashboard videos uid page per_page secret now).1 = 500) := by
  constructor
  · intro page
    unfold get_dashboard get_dashboard_body
    simp [pyFloorDiv]
  · intro page per_page
    unfold get_dashboard
    cases get_dashboard_body videos uid page per_page secret now <;> simp

/-- C6: a login with an email that matches no stored user and a login with a
stored user's email but a password the verifier rejects produce literally
the same response: status 401 with message `Invalid credentials`. -/
theorem login_failure_indistinguishable
    (vp : String → String → Bool) (db : List User) (e1 p1 e2 p2 : String)
    (now1 now2 : Nat) (u : User)
    (he1 : pyLower (pyStrip e1) ≠ "") (hp1 : p1 ≠ "")
    (he2 : pyLower (pyStrip e2) ≠ "") (hp2 : p2 ≠ "")
    (hnone : db.find? (fun v => v.email == pyLower (pyStrip e1)) = none)
    (hsome : db.find? (fun v => v.email == pyLower (pyStrip e2)) = some u)
    (hbad : vp p2 u.password_hash = false) :
    (login vp db e1 p1 now1).1 = (401, "Invalid credentials") ∧
    (login vp db e2 p2 now2).1 = (401, "Invalid credentials") := by
  constructor
  · unfold login
    rw [if_neg, hnone]
    simp [he1, hp1]
  · unfold login
    rw [if_neg, hsome]
    · simp [hbad]
    · simp [he2, hp2]

/-- Witness for C6: unknown email vs wrong password against a one-user store. -/
theorem login_failure_indistinguishable_witness :
    (login vpModel [userSita] "ghost@example.com" "anypw" 11).1 =
      (401, "Invalid credentials") ∧
    (login vpModel [userSita] "sita@example.com" "wrongpw" 12).1 =
      (401, "Invalid credentials") :=
  login_failure_indistinguishable vpModel [userSita] "ghost@example.com" "anypw"
    "sita@example.com" "wrongpw" 11 12 userSita
    (by decide) (by decide) (by decide) (by decide)
    (by decide) (by decide) (by decide)

/-- Helper: when `find?` fails on the first list, searching the concatenation
searches the second list. -/
theorem find?_append_of_none {α : Type} (p : α → Bool) (l1 l2 : List α)
    (h : l1.find? p = none) : (l1 ++ l2).find? p = l2.find? p := by
  induction l1 with
  | nil => rfl
  | cons a t ih =>
    cases hpa : p a with
    | true => simp [List.find?, hpa] at h
    | false =>
      simp only [List.find?, hpa] at h
      simpa [List.find?, hpa] using ih h

/-- Helper: when `find?` fails, `filter` with the same predicate is empty. -/
theorem filter_eq_nil_of_find?_none {α : Type} (p : α → Bool) (l : List α)
    (h : l.find? p = none) : l.filter p = [] := by
  induction l with
  | nil => rfl
  | cons a t ih =>
    cases hpa : p a with
    | true => simp [List.find?, hpa] at h
    | false =>
      simp only [List.find?, hpa] at h
      simpa [List.filter, hpa] using ih h


/-- C8: two sequential signups whose emails agree after whitespace-trimming
and lowercasing (both requests otherwise valid, the first against a store
with no user under that normalized email): the first stores the user and
answers 201, the second answers 409 Conflict and leaves the store
untouched, and exactly one user with that normalized email is stored. -/
theorem duplicate_signup_single_user_conflict
    (hp : String → String) (db : List User) (n1 e1 p1 n2 e2 p2 : String)
    (t1 t2 : Nat) (id1 id2 : String)
    (hemail : pyLower (pyStrip e2) = pyLower (pyStrip e1))
    (hn1 : pyStrip n1 ≠ "") (he1 : pyLower (pyStrip e1) ≠ "") (hl1 : 6 ≤ p1.length)
    (hn2 : pyStrip n2 ≠ "") (hl2 : 6 ≤ p2.length)
    (hfresh : db.find? (fun u => u.email == pyLower (pyStrip e1)) = none) :
    (signup hp db n1 e1 p1 t1 id1).1.1 = 201 ∧
    (signup hp (signup hp db n1 e1 p1 t1 id1).2 n2 e2 p2 t2 id2).1.1 = 409 ∧
    (signup hp (signup hp db n1 e1 p1 t1 id1).2 n2 e2 p2 t2 id2).2 =
      (signup hp db n1 e1 p1 t1 id1).2 ∧
    (((signup hp db n1 e1 p1 t1 id1).2).filter
        (fun u => u.email == pyLower (pyStrip e1))).length = 1 := by
  have hp1ne : p1 ≠ "" := by
    intro hcon
    rw [hcon] at hl1
    simp at hl1
  have hp2ne : p2 ≠ "" := by
    intro hcon
    rw [hcon] at hl2
    simp at hl2
  have hr1 : signup hp db n1 e1 p1 t1 id1 =
      ((201, "User registered successfully"),
        db ++ [signupUser hp (pyStrip n1) (pyLower (pyStrip e1)) p1 t1 id1]) := by
    unfold signup
    rw [if_neg (by simp [hn1, he1, hp1ne]), if_neg (by omega), if_neg (by simp [hfresh])]
  have hu1email : (signupUser hp (pyStrip n1) (pyLower (pyStrip e1)) p1 t1 id1).email =
      pyLower (pyStrip e1) := rfl
  have hfind2 : ((db ++ [signupUser hp (pyStrip n1) (pyLower (pyStrip e1)) p1 t1 id1]).find?
      (fun u => u.email == pyLower (pyStrip e2))) =
      some (signupUser hp (pyStrip n1) (pyLower (pyStrip e1)) p1 t1 id1) := by
    rw [hemail, find?_append_of_none _ _ _ hfresh]
    simp [List.find?, hu1email]
  have hr2 : signup hp (signup hp db n1 e1 p1 t1 id1).2 n2 e2 p2 t2 id2 =
      ((409, "Email already registered"), (signup hp db n1 e1 p1 t1 id1).2) := by
    rw [hr1]
    unfold signup
    rw [if_neg (by simp [hn2, hemail, he1, hp2ne]), if_neg (by omega),
        if_pos (by rw [hfind2]; rfl)]
  refine ⟨by rw [hr1], by rw [hr2], by rw [hr2], ?_⟩
  rw [hr1]
  simp only [List.filter_append, filter_eq_nil_of_find?_none _ _ hfresh]
  simp [List.filter, hu1email]

/-- Witness for C8: same email up to case and surrounding whitespace. -/
theorem duplicate_signup_single_user_conflict_witness :
    (signup hpModel [] "Jo" "jo@x.com" "secret1" 100 "id1").1.1 = 201 ∧
    (signup hpModel (signup hpModel [] "Jo" "jo@x.com" "secret1" 100 "id1").2
      "Jo2" " JO@X.com " "secret2" 200 "id2").1.1 = 409 ∧
    (signup hpModel (signup hpModel [] "Jo" "jo@x.com" "secret1" 100 "id1").2
      "Jo2" " JO@X.com " "secret2" 200 "id2").2 =
      (signup hpModel [] "Jo" "jo@x.com" "secret1" 100 "id1").2 ∧
    (((signup hpModel [] "Jo" "jo@x.com" "secret1" 100 "id1").2).filter
        (fun u => u.email == pyLower (pyStrip "jo@x.com"))).length = 1 :=
  duplicate_signup_single_user_conflict hpModel [] "Jo" "jo@x.com" "secret1"
    "Jo2" " JO@X.com " "secret2" 100 200 "id1" "id2"
    (by decide) (by decide) (by decide) (by decide) (by decide) (by decide) (by decide)

/-- Helper: hex digits are ASCII. -/
theorem hexChar_ascii (n : Nat) : (hexChar n).toNat < 128 := by
  unfold hexChar
  have h16 : n % 16 < 16 := Nat.mod_lt _ (by omega)
  interval_cases h : n % 16 <;> decide

/-- Helper: a SHA-256 hex digest is an ASCII string. -/
theorem sha256Hex_ascii (msg : List Nat) : isAsciiStr (sha256Hex msg) = true := by
  unfold isAsciiStr sha256Hex
  rw [List.all_eq_true]
  intro c hc
  rw [List.mem_flatMap] at hc
  obtain ⟨w, _, hcmem⟩ := hc
  rw [List.mem_map] at hcmem
  obtain ⟨i, _, rfl⟩ := hcmem
  simpa using hexChar_ascii _

/-- Helper: on two ASCII strings `compare_digest` returns their equality and
cannot raise. -/
theorem compare_digest_ok_of_ascii (a b : String) (ha : isAsciiStr a = true)
    (hb : isAsciiStr b = true) : compare_digest a b = .ok (a == b) := by
  unfold compare_digest
  rw [ha, hb]
  rfl

/-- Helper: the unfolding equation of one `verify_playback_token` loop step. -/
theorem verifyLoop_cons (videoId userId token secretKey : String) (now : Nat)
    (o : Nat) (rest : List Nat) :
    verifyLoop videoId userId token secretKey now (o :: rest) =
      match compare_digest token (sha256Hex (pyEncode
          (videoId ++ ":" ++ userId ++ ":" ++ isoformatUTC (now - o * 3600000000) ++
           ":" ++ secretKey))) with
      | .exn e => .exn e
      | .ok true => .ok true
      | .ok false => verifyLoop videoId userId token secretKey now rest := rfl

/-- Helper: with an ASCII candidate token the verification loop always
returns a boolean. -/
theorem verifyLoop_no_exn (videoId userId token secretKey : String) (now : Nat)
    (offs : List Nat) (h : isAsciiStr token = true) :
    ∃ b, verifyLoop videoId userId token secretKey now offs = .ok b := by
  induction offs with
  | nil => exact ⟨false, rfl⟩
  | cons o rest ih =>
    rw [verifyLoop_cons]
    rw [compare_digest_ok_of_ascii _ _ h (sha256Hex_ascii _)]
    cases token == sha256Hex (pyEncode
        (videoId ++ ":" ++ userId ++ ":" ++ isoformatUTC (now - o * 3600000000) ++
         ":" ++ secretKey)) with
    | true => exact ⟨true, rfl⟩
    | false => simpa using ih

/-- C7 counterexample: `verify_playback_token` is not total on arbitrary
candidate strings — a non-ASCII token makes `secrets.compare_digest` raise
TypeError instead of returning false. -/
theorem verify_playback_token_raises_on_non_ascii :
    verify_playback_token "v1" "u1" "café" "server-secret" 1704112200000000 =
      .exn .typeError := rfl

/-- C7 (amended): for every video id, user id, clock reading and every ASCII
candidate string (including malformed, empty or non-hex ones)
`verify_playback_token` returns a boolean and never raises; totality fails
only for candidates containing non-ASCII characters, which raise TypeError
inside `secrets.compare_digest` (caught at the endpoint boundary as the
generic 500). -/
theorem verify_playback_token_total_on_ascii (videoId userId token secretKey : String)
    (now : Nat) (h : isAsciiStr token = true) :
    ∃ b, verify_playback_token videoId userId token secretKey now = .ok b :=
  verifyLoop_no_exn videoId userId token secretKey now [0, 1, 2] h

/-- Witness for the amended C7 at a concrete malformed (non-hex, non-digest)
ASCII candidate. -/
theorem verify_playback_token_total_on_ascii_witness :
    ∃ b, verify_playback_token "v1" "u1" "not-a-real-token!" "server-secret"
      1704112200000000 = .ok b :=
  verify_playback_token_total_on_ascii "v1" "u1" "not-a-real-token!" "server-secret"
    1704112200000000 (by decide)

/-- C9: for a stream request that passes the playback-token check and finds
an active video, the watch-history insert failing does not fail the parent
request: the response status is 200 whether or not that insert raises. -/
theorem stream_swallows_watch_history_failure
    (videos : List Video) (history : List WatchRecord) (uid vid t secret : String)
    (now : Nat) (video : Video)
    (hne : t ≠ "")
    (hver : verify_playback_token vid uid t secret now = .ok true)
    (hfind : videos.find? (fun v => v._id == vid) = some video)
    (hact : video.is_active = true) :
    (get_video_stream videos history uid vid (some t) secret now true).1 = 200 ∧
    (get_video_stream videos history uid vid (some t) secret now false).1 = 200 := by
  have hne2 : (t == "") = false := by simpa using hne
  constructor <;> simp [get_video_stream, hne2, hver, hfind, hact]

/-- Witness for C9: a token generated and verified at the same clock reading
passes verification, and the 200 response is independent of the
watch-history insert outcome. -/
theorem stream_swallows_watch_history_failure_witness :
    (get_video_stream [videoV1] [] "u9" "v1"
      (some (generate_playback_token "v1" "u9" "server-secret" 1704112200000000))
      "server-secret" 1704112200000000 true).1 = 200 ∧
    (get_video_stream [videoV1] [] "u9" "v1"
      (some (generate_playback_token "v1" "u9" "server-secret" 1704112200000000))
      "server-secret" 1704112200000000 false).1 = 200 :=
  stream_swallows_watch_history_failure [videoV1] [] "u9" "v1"
    (generate_playback_token "v1" "u9" "server-secret" 1704112200000000)
    "server-secret" 1704112200000000 videoV1
    (by decide) (by decide) (by decide) (by decide)

/-- C1 (code evaluated at the failing input): the playback-token round trip
fails one second after generation, even inside the same one-hour bucket —
the token generated for `("v1", "u1")` at 2024-01-01T12:30:00+00:00 does
not verify at 2024-01-01T12:30:01+00:00, because both sides hash the full
microsecond-precision `isoformat()` timestamp rather than an hour bucket. -/
theorem playback_roundtrip_fails_one_second_later :
    1704112201000000 / 3600000000 = 1704112200000000 / 3600000000 ∧
    verify_playback_token "v1" "u1"
      (generate_playback_token "v1" "u1" "server-secret" 1704112200000000)
      "server-secret" 1704112201000000 = .ok false := by
  constructor
  · rfl
  · rfl

/-- C2 (code evaluated at the failing input): two `generate_playback_token`
calls for the same `("v1", "u1")` and the same server secret, one second
apart inside the same one-hour bucket, return different codes — generation
is keyed on the full microsecond-precision timestamp, not the bucket. -/
theorem generate_playback_token_not_deterministic_within_bucket :
    1704112201000000 / 3600000000 = 1704112200000000 / 3600000000 ∧
    generate_playback_token "v1" "u1" "server-secret" 1704112200000000 ≠
      generate_playback_token "v1" "u1" "server-secret" 1704112201000000 := by
  constructor
  · rfl
  · decide
